import Mathlib

/-!
# Verification of the SEO content generation and validation pipeline

Shallow embedding of `src/GenAI-3-05/seo_content_system.py`.

The remote completion service is abstracted as an oracle
`Svc : model → system → user → max_tokens → Except Unit String`
returning either the response text resolved by `_chat`'s content
fallbacks (possibly empty) or a connection failure (`Except.error ()`).
Python strings are modelled through their code-point lists (`String.data`):
Python `len`, slicing `[:k]`, `str.strip()`, `str.lower()` and the
substring test `in` become the `py*` helpers below.  The helpers cover
ASCII (plus the basic Cyrillic block for `lower`, which is all the source
compares against); this matches the source on every input the claims use.
-/

set_option maxHeartbeats 1000000

namespace SEO

/-- The completion-service oracle: arguments of `SEOContentSystem._chat`
(model, system instruction, user instruction, max_tokens); `Except.error ()`
models a connection failure raised by the client. -/
abbrev Svc := String → String → String → Nat → Except Unit String

/-- Python `str.lower()` restricted to ASCII letters and the basic Cyrillic
block (the only ranges `seo_content_system.py` ever compares against). -/
def pyCharLower (c : Char) : Char :=
  if 'A' ≤ c ∧ c ≤ 'Z' then Char.ofNat (c.toNat + 32)
  else if 'А' ≤ c ∧ c ≤ 'Я' then Char.ofNat (c.toNat + 32)
  else if c = 'Ё' then 'ё'
  else c

/-- Python `str.lower()` on a whole string. -/
def pyLowerS (s : String) : String := ⟨s.data.map pyCharLower⟩

/-- Python `str.strip()` (leading and trailing whitespace removed). -/
def pyStrip (s : String) : String :=
  ⟨((s.data.dropWhile Char.isWhitespace).reverse.dropWhile Char.isWhitespace).reverse⟩

/-- Python slicing `s[:k]` (a hard cut after `k` code points). -/
def pyTake (k : Nat) (s : String) : String := ⟨s.data.take k⟩

/-- `leadsWith needle hay` : `hay` starts with `needle` (helper for the
Python substring test `needle in hay`). -/
def leadsWith : List Char → List Char → Bool
  | [], _ => true
  | _ :: _, [] => false
  | a :: as, b :: bs => a == b && leadsWith as bs

/-- Python substring containment `needle in haystack`. -/
def containsSub : List Char → List Char → Bool
  | [], needle => needle.isEmpty
  | a :: t, needle => leadsWith needle (a :: t) || containsSub t needle

/-- `detect_language` (seo_content_system.py:41-45): count Cyrillic and
Latin letters; `'ru'` if the Cyrillic count is greater or equal. -/
def detect_language (text : String) : String :=
  let cyr := (text.data.filter fun ch =>
    decide (('а' ≤ pyCharLower ch ∧ pyCharLower ch ≤ 'я') ∨ ch = 'ё')).length
  let lat := (text.data.filter fun ch =>
    decide ('a' ≤ pyCharLower ch ∧ pyCharLower ch ≤ 'z')).length
  if lat ≤ cyr then "ru" else "en"

/-- `missing_keywords` (seo_content_system.py:48-53): the required keywords
not occurring, case-insensitively, as substrings of the text, in order. -/
def missing_keywords (text : String) (keywords : Option (List String)) : List String :=
  match keywords with
  | none => []
  | some ks =>
    if ks = [] then []
    else
      let t := pyLowerS text
      ks.filter fun kw => !(containsSub t.data (pyLowerS kw).data)

/-- `FieldCheck` dataclass (seo_content_system.py:58-63). -/
structure FieldCheck where
  length : Nat
  max_allowed : Nat
  ok_length : Bool
  missing_keywords : List String
  deriving DecidableEq, Repr

/-- The three per-field checks stored in `SEOResult.checks`
(a dict keyed `meta_description` / `title` / `summary` in the source). -/
structure SEOChecks where
  meta_description : FieldCheck
  title : FieldCheck
  summary : FieldCheck
  deriving DecidableEq, Repr

/-- `SEOResult` dataclass (seo_content_system.py:66-76).  The generation
timestamp is an external input of `run` in this embedding. -/
structure SEOResult where
  topic : String
  language : String
  keywords : List String
  meta_description : String
  title : String
  summary : String
  checks : SEOChecks
  model_used : String
  timestamp : String
  deriving DecidableEq, Repr

/-- `SEOContentSystem._chat` (seo_content_system.py:95-111): one oracle call;
the resolved response text is stripped (`(text or "").strip()`). -/
def chat (svc : Svc) (model system user : String) (max_tokens : Nat) :
    Except Unit String :=
  Except.map pyStrip (svc model system user max_tokens)

/-- Leading list-marker characters stripped by the regex
`r'^[\-\d\.\)\s]+'` in `generate_synthetic_keywords`. -/
def isMarkerChar (c : Char) : Bool :=
  c == '-' || c.isDigit || c == '.' || c == ')' || c.isWhitespace

/-- Python `text.splitlines()` for `'\n'`-separated text.  (Differences —
a trailing empty line, `'\r'` remnants — are erased downstream by the
blank-line filter and whitespace stripping.) -/
def splitLinesAux : List Char → List Char → List String
  | [], acc => [⟨acc.reverse⟩]
  | c :: rest, acc =>
    if c = '\n' then ⟨acc.reverse⟩ :: splitLinesAux rest []
    else splitLinesAux rest (c :: acc)

/-- See `splitLinesAux`. -/
def pySplitLines (s : String) : List String := splitLinesAux s.data []

/-- The list comprehension of seo_content_system.py:124: keep non-blank
lines, strip each line's leading list markers, then strip whitespace. -/
def kwLines (text : String) : List String :=
  ((pySplitLines text).filter fun line => pyStrip line != "").map
    fun line => pyStrip ⟨line.data.dropWhile isMarkerChar⟩

/-- The `seen`/`result` dedup loop of seo_content_system.py:125-130:
case-insensitive dedup keeping first-seen order and casing. -/
def dedup_keywords (seen : List String) : List String → List String
  | [] => []
  | kw :: rest =>
    if pyLowerS kw ∈ seen then dedup_keywords seen rest
    else kw :: dedup_keywords (pyLowerS kw :: seen) rest

/-- Post-processing of the synthesis response (seo_content_system.py:124-131):
line split, marker strip, dedup, truncation to `n` keywords. -/
def synth_postprocess (text : String) (n : Nat) : List String :=
  (dedup_keywords [] (kwLines text)).take n

/-- Prompt pair of `generate_synthetic_keywords` (seo_content_system.py:116-121). -/
def kw_prompts (topic language : String) (n : Nat) : String × String :=
  if language = "ru" then
    ("Ты SEO-специалист. Отвечай списком, по одному слову или фразе на строку.",
     "Сгенерируй " ++ toString n ++ " релевантных ключевых слов по теме: " ++ topic ++ ".")
  else
    ("You are an SEO specialist. Reply with a list, one keyword or phrase per line.",
     "Generate " ++ toString n ++ " relevant keywords for the topic: " ++ topic ++ ".")

/-- `generate_synthetic_keywords` (seo_content_system.py:114-131). -/
def generate_synthetic_keywords (svc : Svc) (model topic language : String)
    (n : Nat := 8) : Except Unit (List String) :=
  Except.map (fun text => synth_postprocess text n)
    (chat svc model (kw_prompts topic language n).1 (kw_prompts topic language n).2 200)

/-- The keyword clause appended to a user prompt when the keyword list is
truthy: Python `f" {pre}{', '.join(keywords)}." if keywords else ""`. -/
def kwClause (pre : String) (keywords : Option (List String)) : String :=
  match keywords with
  | none => ""
  | some [] => ""
  | some ks => pre ++ String.intercalate ", " ks ++ "."

/-- Prompt pair of `generate_meta_description` (seo_content_system.py:136-143). -/
def meta_prompts (topic language : String) (keywords : Option (List String)) :
    String × String :=
  if language = "ru" then
    ("Ты маркетолог. Ответь ТОЛЬКО meta description (до 150 символов).",
     "Напиши meta description для сайта о " ++ topic ++ "."
       ++ kwClause " Включи слова: " keywords)
  else
    ("You are a marketing specialist. Reply ONLY with a meta description (<=150 characters).",
     "Write a meta description for a website about " ++ topic ++ "."
       ++ kwClause " Include words: " keywords)

/-- `generate_meta_description` (seo_content_system.py:134-145):
`text[:150].strip()` of the chat response. -/
def generate_meta_description (svc : Svc) (model topic language : String)
    (keywords : Option (List String)) : Except Unit String :=
  Except.map (fun text => pyStrip (pyTake 150 text))
    (chat svc model (meta_prompts topic language keywords).1
      (meta_prompts topic language keywords).2 120)

/-- Prompt pair of `generate_title` (seo_content_system.py:150-157). -/
def title_prompts (topic language : String) (keywords : Option (List String)) :
    String × String :=
  if language = "ru" then
    ("Ты SEO-копирайтер. Верни ТОЛЬКО заголовок (до 60 символов).",
     "Создай кликабельный title по теме: " ++ topic ++ "."
       ++ kwClause " Добавь: " keywords)
  else
    ("You are an SEO copywriter. Return ONLY a title (<=60 chars).",
     "Create a catchy SEO title about: " ++ topic ++ "."
       ++ kwClause " Include: " keywords)

/-- `generate_title` (seo_content_system.py:148-159): `text[:60].strip()`. -/
def generate_title (svc : Svc) (model topic language : String)
    (keywords : Option (List String)) : Except Unit String :=
  Except.map (fun text => pyStrip (pyTake 60 text))
    (chat svc model (title_prompts topic language keywords).1
      (title_prompts topic language keywords).2 60)

/-- Prompt pair of `generate_summary` (seo_content_system.py:164-171). -/
def summary_prompts (topic language : String) (keywords : Option (List String)) :
    String × String :=
  if language = "ru" then
    ("Ты редактор. Верни 1–2 предложения (до 300 символов).",
     "Кратко опиши тему: " ++ topic ++ "." ++ kwClause " Включи: " keywords)
  else
    ("You are an editor. Return 1–2 sentences (<=300 chars).",
     "Briefly describe the topic: " ++ topic ++ "." ++ kwClause " Include: " keywords)

/-- `generate_summary` (seo_content_system.py:162-173): `text[:300].strip()`. -/
def generate_summary (svc : Svc) (model topic language : String)
    (keywords : Option (List String)) : Except Unit String :=
  Except.map (fun text => pyStrip (pyTake 300 text))
    (chat svc model (summary_prompts topic language keywords).1
      (summary_prompts topic language keywords).2 180)

/-- `SEOContentSystem._check_field` (seo_content_system.py:176-183). -/
def check_field (text : String) (max_len : Nat) (keywords : Option (List String)) :
    FieldCheck :=
  { length := text.length
    max_allowed := max_len
    ok_length := decide (text.length ≤ max_len)
    missing_keywords := missing_keywords text keywords }

/-- Language resolution of `run` (seo_content_system.py:195):
`lang = language or detect_language(topic)` — `None` and `""` are falsy. -/
def resolveLanguage (language : Option String) (topic : String) : String :=
  match language with
  | some l => if l = "" then detect_language topic else l
  | none => detect_language topic

/-- Keyword resolution of `run` (seo_content_system.py:196-198):
`kws = keywords or []`, replaced by synthesis when empty and enabled.
`Except.error ()` is a connection failure inside the synthesis call. -/
def resolveKeywords (svc : Svc) (model topic lang : String)
    (keywords : Option (List String)) (synth_keywords_if_missing : Bool) :
    Except Unit (List String) :=
  let kws := keywords.getD []
  if kws = [] ∧ synth_keywords_if_missing = true then
    generate_synthetic_keywords svc model topic lang 8
  else Except.ok kws

/-- The errors `run` can propagate to its caller: a completion-service
connection failure, or a failure writing the output JSON artifact. -/
inductive RunError where
  | serviceUnavailable
  | serializationFailure
  deriving DecidableEq, Repr

/-- Python truthiness of the `out_json_path` argument (`if out_json_path:`). -/
def pathTruthy : Option String → Bool
  | none => false
  | some p => p != ""

/-- `SEOContentSystem.run` (seo_content_system.py:186-226).  The service
oracle, the outcome of the JSON write (`write_ok`) and the timestamp are
external inputs; a raised exception is the corresponding `Except.error`. -/
def run (svc : Svc) (model topic : String) (language : Option String)
    (keywords : Option (List String)) (synth_keywords_if_missing : Bool)
    (out_json_path : Option String) (write_ok : Bool) (timestamp : String) :
    Except RunError SEOResult :=
  let lang := resolveLanguage language topic
  match resolveKeywords svc model topic lang keywords synth_keywords_if_missing with
  | .error _ => .error .serviceUnavailable
  | .ok kws =>
    match generate_meta_description svc model topic lang (some kws) with
    | .error _ => .error .serviceUnavailable
    | .ok meta =>
      match generate_title svc model topic lang (some kws) with
      | .error _ => .error .serviceUnavailable
      | .ok title =>
        match generate_summary svc model topic lang (some kws) with
        | .error _ => .error .serviceUnavailable
        | .ok summary =>
          let checks : SEOChecks :=
            { meta_description := check_field meta 150 (some kws)
              title := check_field title 60 (some kws)
              summary := check_field summary 300 (some kws) }
          let result : SEOResult :=
            { topic := topic, language := lang, keywords := kws
              meta_description := meta, title := title, summary := summary
              checks := checks, model_used := model, timestamp := timestamp }
          if pathTruthy out_json_path then
            if write_ok then .ok result else .error .serializationFailure
          else .ok result

/-- One `_chat` invocation: its arguments as issued to the service. -/
structure ChatCall where
  model : String
  system : String
  user : String
  max_tokens : Nat
  deriving DecidableEq, Repr

/-- The `_chat` call issued by `generate_synthetic_keywords`. -/
def kw_chat_call (model topic language : String) (n : Nat) : ChatCall :=
  ⟨model, (kw_prompts topic language n).1, (kw_prompts topic language n).2, 200⟩

/-- The `_chat` call issued by `generate_meta_description`. -/
def meta_chat_call (model topic language : String)
    (keywords : Option (List String)) : ChatCall :=
  ⟨model, (meta_prompts topic language keywords).1,
    (meta_prompts topic language keywords).2, 120⟩

/-- The `_chat` call issued by `generate_title`. -/
def title_chat_call (model topic language : String)
    (keywords : Option (List String)) : ChatCall :=
  ⟨model, (title_prompts topic language keywords).1,
    (title_prompts topic language keywords).2, 60⟩

/-- The `_chat` call issued by `generate_summary`. -/
def summary_chat_call (model topic language : String)
    (keywords : Option (List String)) : ChatCall :=
  ⟨model, (summary_prompts topic language keywords).1,
    (summary_prompts topic language keywords).2, 180⟩

/-- The sequence of `_chat` invocations a `run` with these arguments issues,
in order, mirroring `run`'s control flow: each generative step makes exactly
one call, and a raised connection failure stops the run at that call. -/
def run_calls (svc : Svc) (model topic : String) (language : Option String)
    (keywords : Option (List String)) (synth_keywords_if_missing : Bool) :
    List ChatCall :=
  let lang := resolveLanguage language topic
  let kwsTrace :=
    if keywords.getD [] = [] ∧ synth_keywords_if_missing = true then
      [kw_chat_call model topic lang 8]
    else []
  match resolveKeywords svc model topic lang keywords synth_keywords_if_missing with
  | .error _ => kwsTrace
  | .ok kws =>
    match generate_meta_description svc model topic lang (some kws) with
    | .error _ => kwsTrace ++ [meta_chat_call model topic lang (some kws)]
    | .ok _ =>
      match generate_title svc model topic lang (some kws) with
      | .error _ => kwsTrace ++ [meta_chat_call model topic lang (some kws),
          title_chat_call model topic lang (some kws)]
      | .ok _ =>
        match generate_summary svc model topic lang (some kws) with
        | .error _ => kwsTrace ++ [meta_chat_call model topic lang (some kws),
            title_chat_call model topic lang (some kws),
            summary_chat_call model topic lang (some kws)]
        | .ok _ => kwsTrace ++ [meta_chat_call model topic lang (some kws),
            title_chat_call model topic lang (some kws),
            summary_chat_call model topic lang (some kws)]

/-- The `mark` helper of `pretty_report` (seo_content_system.py:235-236). -/
def mark (ok : Bool) : String := if ok then "✓" else "✗"

/-- The `list_or_dash` helper of `pretty_report` (seo_content_system.py:242). -/
def list_or_dash (items : List String) : String :=
  if items = [] then "—" else String.intercalate ", " items

/-- Per-field pass flag computed in `pretty_report` (seo_content_system.py:238-240):
length ok and no missing keywords. -/
def field_ok (c : FieldCheck) : Bool := c.ok_length && c.missing_keywords.isEmpty

/-- The aggregate verdict `meta_ok and title_ok and summary_ok` rendered in
the last report line (seo_content_system.py:262). -/
def aggregate_verdict (res : SEOResult) : Bool :=
  field_ok res.checks.meta_description && field_ok res.checks.title
    && field_ok res.checks.summary

/-- The lines of `pretty_report` (seo_content_system.py:244-263). -/
def report_lines (res : SEOResult) : List String :=
  let ch := res.checks
  [ "Тема: " ++ res.topic,
    "Язык: " ++ res.language,
    "Ключевые слова: "
      ++ (if res.keywords = [] then "—" else String.intercalate ", " res.keywords),
    "",
    "TITLE (" ++ toString ch.title.length ++ "/" ++ toString ch.title.max_allowed
      ++ "): " ++ res.title,
    "  Длина ОК: " ++ mark ch.title.ok_length ++ "; Отсутствуют ключевые: "
      ++ list_or_dash ch.title.missing_keywords,
    "",
    "META (" ++ toString ch.meta_description.length ++ "/"
      ++ toString ch.meta_description.max_allowed ++ "): " ++ res.meta_description,
    "  Длина ОК: " ++ mark ch.meta_description.ok_length
      ++ "; Отсутствуют ключевые: " ++ list_or_dash ch.meta_description.missing_keywords,
    "",
    "SUMMARY (" ++ toString ch.summary.length ++ "/" ++ toString ch.summary.max_allowed
      ++ "): " ++ res.summary,
    "  Длина ОК: " ++ mark ch.summary.ok_length ++ "; Отсутствуют ключевые: "
      ++ list_or_dash ch.summary.missing_keywords,
    "",
    "Модель: " ++ res.model_used,
    "Время: " ++ res.timestamp,
    "",
    "Базовый критерий: контент создан.",
    "Итоговая метрика (все требования выполнены): " ++ mark (aggregate_verdict res) ]

/-- `pretty_report` (seo_content_system.py:231-264). -/
def pretty_report (res : SEOResult) : String :=
  String.intercalate "\n" (report_lines res)

/-! ### Concrete oracles and results used to instantiate the theorems -/

/-- Mocked service of Scenario A: the keyword lines
`"1. electric bike"`, `"- cycling"`, `"electric bike"`. -/
def svcA : Svc := fun _ _ _ _ =>
  Except.ok "1. electric bike\n- cycling\nelectric bike"

/-- Mocked service answering `"Electric bikes"` to every request. -/
def svcC1 : Svc := fun _ _ _ _ => Except.ok "Electric bikes"

/-- Mocked service answering `"Electric bikes"` to every request. -/
def svcC2 : Svc := fun _ _ _ _ => Except.ok "Electric bikes"

/-- Mocked service whose keyword response is a marker-only line
followed by `"cycling"`. -/
def svcC4 : Svc := fun _ _ _ _ => Except.ok "-\ncycling"

/-- Mocked service answering `"Electric bikes"` to every request. -/
def svcC6 : Svc := fun _ _ _ _ => Except.ok "Electric bikes"

/-- Mocked service raising a connection failure exactly on the title
generation call (the only `_chat` call with `max_tokens = 60`). -/
def svcC7 : Svc := fun _ _ _ mt =>
  if mt = 60 then Except.error () else Except.ok "ok text"

/-- A 90-character response: 59 `'a'`s, a space, then 30 `'b'`s. -/
def s90 : String := ⟨List.replicate 59 'a' ++ ' ' :: List.replicate 30 'b'⟩

/-- Mocked service answering `s90` to every request. -/
def svcC8 : Svc := fun _ _ _ _ => Except.ok s90

/-- The `SEOResult` produced by `run svcC1 "m" "t" (some "en") (some ["bike"])
false none true "ts"`. -/
def resC1 : SEOResult :=
  { topic := "t", language := "en", keywords := ["bike"]
    meta_description := "Electric bikes", title := "Electric bikes"
    summary := "Electric bikes"
    checks :=
      { meta_description := ⟨14, 150, true, []⟩
        title := ⟨14, 60, true, []⟩
        summary := ⟨14, 300, true, []⟩ }
    model_used := "m", timestamp := "ts" }

/-- The `SEOResult` produced by `run svcC2 "m" "t" none (some ["bike"])
false none true "ts"` (language detected from the topic). -/
def resC2 : SEOResult :=
  { topic := "t", language := "en", keywords := ["bike"]
    meta_description := "Electric bikes", title := "Electric bikes"
    summary := "Electric bikes"
    checks :=
      { meta_description := ⟨14, 150, true, []⟩
        title := ⟨14, 60, true, []⟩
        summary := ⟨14, 300, true, []⟩ }
    model_used := "m", timestamp := "ts" }

/-- An arbitrary `SEOResult` value (used to instantiate a negated
universal conclusion). -/
def dummyResult : SEOResult :=
  { topic := "", language := "", keywords := [], meta_description := ""
    title := "", summary := ""
    checks :=
      { meta_description := ⟨0, 0, true, []⟩
        title := ⟨0, 0, true, []⟩
        summary := ⟨0, 0, true, []⟩ }
    model_used := "", timestamp := "" }

/-! ### General-purpose lemmas -/

theorem except_map_eq_ok {α β ε : Type} (f : α → β) (e : Except ε α) (b : β)
    (h : Except.map f e = Except.ok b) : ∃ a, e = Except.ok a ∧ b = f a := by
  cases e with
  | error err => simp [Except.map] at h
  | ok a => exact ⟨a, rfl, by simpa [Except.map] using h.symm⟩

theorem length_dropWhile_le {α : Type} (p : α → Bool) (l : List α) :
    (l.dropWhile p).length ≤ l.length := by
  induction l with
  | nil => simp
  | cons a t ih =>
    rw [List.dropWhile_cons]
    split
    · exact ih.trans (Nat.le_succ _)
    · exact Nat.le_refl _

theorem pyStrip_length_le (s : String) : (pyStrip s).length ≤ s.length := by
  cases s with
  | mk l =>
    show (((l.dropWhile _).reverse.dropWhile _).reverse).length ≤ l.length
    rw [List.length_reverse]
    calc ((l.dropWhile Char.isWhitespace).reverse.dropWhile Char.isWhitespace).length
        ≤ (l.dropWhile Char.isWhitespace).reverse.length := length_dropWhile_le _ _
      _ = (l.dropWhile Char.isWhitespace).length := List.length_reverse _
      _ ≤ l.length := length_dropWhile_le _ _

theorem pyTake_length_le (k : Nat) (s : String) : (pyTake k s).length ≤ k := by
  show (s.data.take k).length ≤ k
  rw [List.length_take]
  exact Nat.min_le_left _ _

/-- The truncate-then-strip post-processing of every field generator stays
within the truncation limit. -/
theorem stripTake_length_le (k : Nat) (t : String) :
    (pyStrip (pyTake k t)).length ≤ k :=
  (pyStrip_length_le _).trans (pyTake_length_le k t)

/-- Shape of a successful `run`: the four generative outcomes and the
assembled result. -/
theorem run_ok_shape (svc : Svc) (model topic : String) (language : Option String)
    (keywords : Option (List String)) (synth : Bool) (path : Option String)
    (wok : Bool) (ts : String) (res : SEOResult)
    (h : run svc model topic language keywords synth path wok ts = Except.ok res) :
    ∃ kws meta title summary,
      resolveKeywords svc model topic (resolveLanguage language topic) keywords synth
          = Except.ok kws ∧
      generate_meta_description svc model topic (resolveLanguage language topic) (some kws)
          = Except.ok meta ∧
      generate_title svc model topic (resolveLanguage language topic) (some kws)
          = Except.ok title ∧
      generate_summary svc model topic (resolveLanguage language topic) (some kws)
          = Except.ok summary ∧
      res = { topic := topic, language := resolveLanguage language topic, keywords := kws
              meta_description := meta, title := title, summary := summary
              checks := { meta_description := check_field meta 150 (some kws)
                          title := check_field title 60 (some kws)
                          summary := check_field summary 300 (some kws) }
              model_used := model, timestamp := ts } := by
  unfold run at h
  rcases hkws : resolveKeywords svc model topic (resolveLanguage language topic) keywords synth
    with e | kws
  · simp only [hkws] at h
    exact Except.noConfusion h
  · simp only [hkws] at h
    rcases hmeta : generate_meta_description svc model topic
        (resolveLanguage language topic) (some kws) with e | meta
    · simp only [hmeta] at h
      exact Except.noConfusion h
    · simp only [hmeta] at h
      rcases htitle : generate_title svc model topic
          (resolveLanguage language topic) (some kws) with e | title
      · simp only [htitle] at h
        exact Except.noConfusion h
      · simp only [htitle] at h
        rcases hsummary : generate_summary svc model topic
            (resolveLanguage language topic) (some kws) with e | summary
        · simp only [hsummary] at h
          exact Except.noConfusion h
        · simp only [hsummary] at h
          refine ⟨kws, meta, title, summary, rfl, hmeta, htitle, hsummary, ?_⟩
          split at h
          · split at h
            · exact (Except.ok.inj h).symm
            · exact Except.noConfusion h
          · exact (Except.ok.inj h).symm

/-! ### The claims -/

/-- C1: every `SEOResult` produced by `run`, for any completion-service
behaviour, has title/meta/summary texts within 60/150/300 characters, and
the recorded `ok_length` flags are all true (generation-time truncation
and validation-time checking use the same limits). -/
theorem run_result_respects_length_limits (svc : Svc) (model topic : String)
    (language : Option String) (keywords : Option (List String)) (synth : Bool)
    (path : Option String) (wok : Bool) (ts : String) (res : SEOResult)
    (h : run svc model topic language keywords synth path wok ts = Except.ok res) :
    res.title.length ≤ 60 ∧ res.meta_description.length ≤ 150 ∧
    res.summary.length ≤ 300 ∧
    res.checks.title.ok_length = true ∧
    res.checks.meta_description.ok_length = true ∧
    res.checks.summary.ok_length = true := by
  obtain ⟨kws, meta, title, summary, hkws, hmeta, htitle, hsummary, rfl⟩ :=
    run_ok_shape svc model topic language keywords synth path wok ts res h
  obtain ⟨t1, -, hm⟩ := except_map_eq_ok _ _ _ hmeta
  obtain ⟨t2, -, ht⟩ := except_map_eq_ok _ _ _ htitle
  obtain ⟨t3, -, hs⟩ := except_map_eq_ok _ _ _ hsummary
  subst hm ht hs
  exact ⟨stripTake_length_le 60 t2, stripTake_length_le 150 t1,
    stripTake_length_le 300 t3,
    decide_eq_true (stripTake_length_le 60 t2),
    decide_eq_true (stripTake_length_le 150 t1),
    decide_eq_true (stripTake_length_le 300 t3)⟩

theorem run_result_respects_length_limits_witness :
    run svcC1 "m" "t" (some "en") (some ["bike"]) false none true "ts"
        = Except.ok resC1 ∧
    (resC1.title.length ≤ 60 ∧ resC1.meta_description.length ≤ 150 ∧
      resC1.summary.length ≤ 300 ∧
      resC1.checks.title.ok_length = true ∧
      resC1.checks.meta_description.ok_length = true ∧
      resC1.checks.summary.ok_length = true) :=
  ⟨rfl, run_result_respects_length_limits svcC1 "m" "t" (some "en")
    (some ["bike"]) false none true "ts" resC1 rfl⟩

/-- C2: the resolved keyword list (caller-supplied if non-empty, else the
synthesizer output when synthesis is enabled, else empty) is the one list
stored in `SEOResult.keywords`, passed to all three field generators, and
used by all three validation checks — no drift. -/
theorem run_keyword_consistency (svc : Svc) (model topic : String)
    (language : Option String) (keywords : Option (List String)) (synth : Bool)
    (path : Option String) (wok : Bool) (ts : String) (res : SEOResult)
    (h : run svc model topic language keywords synth path wok ts = Except.ok res) :
    ∃ kws,
      resolveKeywords svc model topic (resolveLanguage language topic) keywords synth
          = Except.ok kws ∧
      res.keywords = kws ∧
      generate_meta_description svc model topic (resolveLanguage language topic) (some kws)
          = Except.ok res.meta_description ∧
      generate_title svc model topic (resolveLanguage language topic) (some kws)
          = Except.ok res.title ∧
      generate_summary svc model topic (resolveLanguage language topic) (some kws)
          = Except.ok res.summary ∧
      res.checks.meta_description = check_field res.meta_description 150 (some kws) ∧
      res.checks.title = check_field res.title 60 (some kws) ∧
      res.checks.summary = check_field res.summary 300 (some kws) ∧
      (keywords.getD [] ≠ [] → kws = keywords.getD []) ∧
      (keywords.getD [] = [] → synth = true →
        generate_synthetic_keywords svc model topic (resolveLanguage language topic) 8
          = Except.ok kws) ∧
      (keywords.getD [] = [] → synth = false → kws = []) := by
  obtain ⟨kws, meta, title, summary, hkws, hmeta, htitle, hsummary, rfl⟩ :=
    run_ok_shape svc model topic language keywords synth path wok ts res h
  refine ⟨kws, hkws, rfl, hmeta, htitle, hsummary, rfl, rfl, rfl, ?_, ?_, ?_⟩
  · intro hne
    simp only [resolveKeywords] at hkws
    rw [if_neg (by simp [hne])] at hkws
    exact (Except.ok.inj hkws).symm
  · intro h0 hs
    simp only [resolveKeywords] at hkws
    rwa [if_pos ⟨h0, hs⟩] at hkws
  · intro h0 hs
    simp only [resolveKeywords] at hkws
    rw [if_neg (by simp [hs])] at hkws
    rw [← Except.ok.inj hkws, h0]

theorem run_keyword_consistency_witness :
    run svcC2 "m" "t" none (some ["bike"]) false none true "ts"
        = Except.ok resC2 ∧
    resC2.keywords = ["bike"] := by
  refine ⟨rfl, ?_⟩
  obtain ⟨kws, h1, h2, -⟩ := run_keyword_consistency svcC2 "m" "t" none
    (some ["bike"]) false none true "ts" resC2 rfl
  rw [h2]
  exact Except.ok.inj ((rfl :
    resolveKeywords svcC2 "m" "t" (resolveLanguage none "t") (some ["bike"]) false
      = Except.ok ["bike"]).symm.trans h1).symm


/-- C5: `_check_field` reports `ok_length` exactly when the text length is
within the maximum, and reports as missing exactly the required keywords
not occurring case-insensitively as substrings, in their order in `K`;
in particular `"bicycle"` is missing from `"Buy the best bikes online"`. -/
theorem check_field_spec (text : String) (max_len : Nat) (K : List String) :
    ((check_field text max_len (some K)).ok_length = true ↔ text.length ≤ max_len) ∧
    (check_field text max_len (some K)).missing_keywords
        = K.filter (fun kw => !(containsSub (pyLowerS text).data (pyLowerS kw).data)) ∧
    (∀ kw, kw ∈ (check_field text max_len (some K)).missing_keywords ↔
      kw ∈ K ∧ ¬ containsSub (pyLowerS text).data (pyLowerS kw).data = true) ∧
    ((∀ kw ∈ K, containsSub (pyLowerS text).data (pyLowerS kw).data = true) →
      (check_field text max_len (some K)).missing_keywords = []) ∧
    (check_field "Buy the best bikes online" 150 (some ["bicycle"])).missing_keywords
        = ["bicycle"] := by
  have hfilter : (check_field text max_len (some K)).missing_keywords
      = K.filter (fun kw => !(containsSub (pyLowerS text).data (pyLowerS kw).data)) := by
    show missing_keywords text (some K) = _
    unfold missing_keywords
    cases K with
    | nil => simp
    | cons a l => simp
  refine ⟨by simp [check_field], hfilter, ?_, ?_, by decide⟩
  · intro kw
    rw [hfilter]
    simp [List.mem_filter]
  · intro hall
    rw [hfilter, List.filter_eq_nil_iff]
    intro a ha
    simp [hall a ha]

theorem check_field_spec_witness :
    (∀ kw ∈ ["bike"], containsSub (pyLowerS "Electric bikes").data (pyLowerS kw).data = true) ∧
    (check_field "Electric bikes" 60 (some ["bike"])).missing_keywords = [] :=
  ⟨by decide, (check_field_spec "Electric bikes" 60 ["bike"]).2.2.2.1 (by decide)⟩

/-- C9: the aggregate verdict rendered by `pretty_report` is true exactly
when all three fields simultaneously have `ok_length` and no missing
keywords, and the report itemizes, per field, length versus maximum, a
length-ok marker and the missing-keyword list. -/
theorem report_verdict_spec (res : SEOResult) :
    (aggregate_verdict res = true ↔
      (res.checks.title.ok_length = true ∧ res.checks.title.missing_keywords = [] ∧
       res.checks.meta_description.ok_length = true ∧
       res.checks.meta_description.missing_keywords = [] ∧
       res.checks.summary.ok_length = true ∧
       res.checks.summary.missing_keywords = [])) ∧
    ("TITLE (" ++ toString res.checks.title.length ++ "/"
        ++ toString res.checks.title.max_allowed ++ "): " ++ res.title)
      ∈ report_lines res ∧
    ("  Длина ОК: " ++ mark res.checks.title.ok_length ++ "; Отсутствуют ключевые: "
        ++ list_or_dash res.checks.title.missing_keywords) ∈ report_lines res ∧
    ("META (" ++ toString res.checks.meta_description.length ++ "/"
        ++ toString res.checks.meta_description.max_allowed ++ "): "
        ++ res.meta_description) ∈ report_lines res ∧
    ("  Длина ОК: " ++ mark res.checks.meta_description.ok_length
        ++ "; Отсутствуют ключевые: "
        ++ list_or_dash res.checks.meta_description.missing_keywords) ∈ report_lines res ∧
    ("SUMMARY (" ++ toString res.checks.summary.length ++ "/"
        ++ toString res.checks.summary.max_allowed ++ "): " ++ res.summary)
      ∈ report_lines res ∧
    ("  Длина ОК: " ++ mark res.checks.summary.ok_length ++ "; Отсутствуют ключевые: "
        ++ list_or_dash res.checks.summary.missing_keywords) ∈ report_lines res ∧
    ("Итоговая метрика (все требования выполнены): " ++ mark (aggregate_verdict res))
      ∈ report_lines res := by
  constructor
  · simp only [aggregate_verdict, field_ok, Bool.and_eq_true, List.isEmpty_iff]
    tauto
  · refine ⟨?_, ?_, ?_, ?_, ?_, ?_, ?_⟩ <;> simp [report_lines]

/-- C10: at `run`'s interface, an empty-string language behaves like an
absent language (detection runs on the topic), and an empty keyword list
behaves like absent keywords, because both resolutions test truthiness. -/
theorem run_falsy_empty_args (svc : Svc) (model topic : String)
    (language : Option String) (keywords : Option (List String)) (synth : Bool)
    (path : Option String) (wok : Bool) (ts : String) :
    run svc model topic (some "") keywords synth path wok ts
        = run svc model topic none keywords synth path wok ts ∧
    run svc model topic language (some []) synth path wok ts
        = run svc model topic language none synth path wok ts ∧
    resolveLanguage (some "") topic = detect_language topic :=
  ⟨rfl, rfl, rfl⟩

/-- C6 counterexample: with a service that succeeds everywhere, a failing
write of the output artifact makes `run` raise `SerializationFailure`; the
assembled `SEOResult` is not returned to the caller. -/
theorem run_write_failure_counterexample :
    run svcC6 "m" "t" (some "en") (some ["bike"]) false (some "out.json") false "ts"
      = Except.error RunError.serializationFailure := rfl

/-- C6 (amended): when writing the output artifact fails, the error is
surfaced to the caller, but the pipeline result is lost — `run` never
returns an `SEOResult` in that case. -/
theorem run_write_failure_no_result (svc : Svc) (model topic : String)
    (language : Option String) (keywords : Option (List String)) (synth : Bool)
    (out_json_path : Option String) (write_ok : Bool) (ts : String)
    (hpath : pathTruthy out_json_path = true) (hwok : write_ok = false) :
    ∀ r : SEOResult,
      run svc model topic language keywords synth out_json_path write_ok ts
        ≠ Except.ok r := by
  intro r h
  unfold run at h
  rcases hkws : resolveKeywords svc model topic (resolveLanguage language topic)
      keywords synth with e | kws
  · simp only [hkws] at h
    exact Except.noConfusion h
  simp only [hkws] at h
  rcases hmeta : generate_meta_description svc model topic
      (resolveLanguage language topic) (some kws) with e | meta
  · simp only [hmeta] at h
    exact Except.noConfusion h
  simp only [hmeta] at h
  rcases htitle : generate_title svc model topic
      (resolveLanguage language topic) (some kws) with e | title
  · simp only [htitle] at h
    exact Except.noConfusion h
  simp only [htitle] at h
  rcases hsummary : generate_summary svc model topic
      (resolveLanguage language topic) (some kws) with e | summary
  · simp only [hsummary] at h
    exact Except.noConfusion h
  simp only [hsummary] at h
  rw [if_pos hpath, hwok] at h
  simp at h

theorem run_write_failure_no_result_witness :
    pathTruthy (some "out.json") = true ∧
    run svcC6 "m" "t2" (some "en") (some ["bike"]) false (some "out.json") false "ts"
      ≠ Except.ok dummyResult :=
  ⟨rfl, run_write_failure_no_result svcC6 "m" "t2" (some "en") (some ["bike"]) false
    (some "out.json") false "ts" rfl rfl dummyResult⟩


theorem dedup_keywords_sublist (seen l : List String) :
    (dedup_keywords seen l).Sublist l := by
  induction l generalizing seen with
  | nil => simp [dedup_keywords]
  | cons kw rest ih =>
    simp only [dedup_keywords]
    split
    · exact (ih seen).trans (List.sublist_cons_self _ _)
    · exact List.Sublist.cons₂ kw (ih _)

theorem dedup_keywords_not_seen (seen l : List String) :
    ∀ k ∈ dedup_keywords seen l, pyLowerS k ∉ seen := by
  induction l generalizing seen with
  | nil => simp [dedup_keywords]
  | cons kw rest ih =>
    intro k hk
    simp only [dedup_keywords] at hk
    split at hk
    · exact ih seen k hk
    next hns =>
      rcases List.mem_cons.mp hk with rfl | hk2
      · exact hns
      · exact fun hs => ih _ k hk2 (List.mem_cons_of_mem _ hs)

theorem dedup_keywords_pairwise (seen l : List String) :
    (dedup_keywords seen l).Pairwise (fun a b => pyLowerS a ≠ pyLowerS b) := by
  induction l generalizing seen with
  | nil => simp [dedup_keywords]
  | cons kw rest ih =>
    simp only [dedup_keywords]
    split
    · exact ih seen
    · refine List.Pairwise.cons ?_ (ih _)
      intro b hb heq
      exact dedup_keywords_not_seen _ _ b hb (heq ▸ List.mem_cons_self _ _)

theorem dedup_keywords_first_seen (seen l : List String) :
    ∀ k ∈ dedup_keywords seen l, ∃ l1 l2, l = l1 ++ k :: l2 ∧
      ∀ k2 ∈ l1, pyLowerS k2 = pyLowerS k → pyLowerS k2 ∈ seen := by
  induction l generalizing seen with
  | nil => simp [dedup_keywords]
  | cons kw rest ih =>
    intro k hk
    simp only [dedup_keywords] at hk
    split at hk
    next hin =>
      obtain ⟨l1, l2, hsplit, hprop⟩ := ih seen k hk
      refine ⟨kw :: l1, l2, by rw [hsplit]; rfl, ?_⟩
      intro k2 hk2 heq
      rcases List.mem_cons.mp hk2 with rfl | hmem
      · exact hin
      · exact hprop k2 hmem heq
    next hin =>
      rcases List.mem_cons.mp hk with rfl | hk2
      · exact ⟨[], rest, rfl, by simp⟩
      · obtain ⟨l1, l2, hsplit, hprop⟩ := ih _ k hk2
        have hkns : pyLowerS k ∉ pyLowerS kw :: seen :=
          dedup_keywords_not_seen _ _ k hk2
        refine ⟨kw :: l1, l2, by rw [hsplit]; rfl, ?_⟩
        intro k2 hk2m heq
        rcases List.mem_cons.mp hk2m with heq2 | hmem
        · have hmem0 : pyLowerS k ∈ pyLowerS kw :: seen := by
            rw [← heq, heq2]
            exact List.mem_cons_self _ _
          exact (hkns hmem0).elim
        · rcases List.mem_cons.mp (hprop k2 hmem heq) with h1 | h2
          · have hmem0 : pyLowerS k ∈ pyLowerS kw :: seen := by
              rw [heq.symm.trans h1]
              exact List.mem_cons_self _ _
            exact (hkns hmem0).elim
          · exact h2

/-- C3: the synthesizer output has no two case-insensitively equal
keywords, keeps first-seen order and casing of the kept keywords, and has
at most `n` entries; on the Scenario A response the resolved keywords are
exactly `["electric bike", "cycling"]`. -/
theorem synth_keywords_dedup_spec (svc : Svc) (model topic language : String)
    (n : Nat) (out : List String)
    (h : generate_synthetic_keywords svc model topic language n = Except.ok out) :
    out.Pairwise (fun a b => pyLowerS a ≠ pyLowerS b) ∧
    out.length ≤ n ∧
    (∃ text, out = synth_postprocess text n ∧
      out.Sublist (kwLines text) ∧
      ∀ kw ∈ out, ∃ l1 l2, kwLines text = l1 ++ kw :: l2 ∧
        ∀ k2 ∈ l1, pyLowerS k2 ≠ pyLowerS kw) ∧
    (resolveKeywords svcA "m" "electric bicycles" "en" none true
        = Except.ok ["electric bike", "cycling"] ∧
      detect_language "electric bicycles" = "en") := by
  obtain ⟨text, -, hout⟩ := except_map_eq_ok _ _ _ h
  subst hout
  refine ⟨?_, ?_, ⟨text, rfl, ?_, ?_⟩, rfl, rfl⟩
  · exact (dedup_keywords_pairwise [] (kwLines text)).sublist (List.take_sublist _ _)
  · rw [synth_postprocess, List.length_take]
    exact Nat.min_le_left _ _
  · exact (List.take_sublist _ _).trans (dedup_keywords_sublist [] (kwLines text))
  · intro kw hkw
    have hmem : kw ∈ dedup_keywords [] (kwLines text) :=
      List.take_subset _ _ hkw
    obtain ⟨l1, l2, hsplit, hprop⟩ :=
      dedup_keywords_first_seen [] (kwLines text) kw hmem
    exact ⟨l1, l2, hsplit, fun k2 h2 heq => List.not_mem_nil _ (hprop k2 h2 heq)⟩

theorem synth_keywords_dedup_spec_witness :
    generate_synthetic_keywords svcA "m" "electric bicycles" "en" 8
        = Except.ok ["electric bike", "cycling"] ∧
    (["electric bike", "cycling"] : List String).Pairwise
      (fun a b => pyLowerS a ≠ pyLowerS b) :=
  ⟨rfl, (synth_keywords_dedup_spec svcA "m" "electric bicycles" "en" 8
    ["electric bike", "cycling"] rfl).1⟩


theorem dropWhile_head_not (p : Char → Bool) (l : List Char) (c : Char)
    (cs : List Char) (h : l.dropWhile p = c :: cs) : p c = false := by
  induction l with
  | nil => simp at h
  | cons a t ih =>
    rw [List.dropWhile_cons] at h
    split at h
    · exact ih h
    next hpa =>
      injection h with h1 h2
      subst h1
      exact Bool.eq_false_iff.mpr hpa

theorem pyStrip_cons_ne_empty (c : Char) (cs : List Char)
    (hc : c.isWhitespace = false) : pyStrip ⟨c :: cs⟩ ≠ "" := by
  intro h
  have hdata : (((c :: cs).dropWhile Char.isWhitespace).reverse.dropWhile
      Char.isWhitespace).reverse = [] := congrArg String.data h
  rw [List.dropWhile_cons, if_neg (by simp [hc])] at hdata
  rw [List.reverse_eq_nil_iff] at hdata
  have hall := List.dropWhile_eq_nil_iff.mp hdata
  have hcmem : c ∈ (c :: cs).reverse := by simp
  have hcw := hall c hcmem
  rw [hc] at hcw
  exact Bool.noConfusion hcw

theorem pyStrip_dropWhile_marker_empty (l : List Char)
    (h : pyStrip ⟨l.dropWhile isMarkerChar⟩ = "") :
    l.dropWhile isMarkerChar = [] := by
  rcases hd : l.dropWhile isMarkerChar with _ | ⟨c, cs⟩
  · rfl
  · rw [hd] at h
    have hcm : isMarkerChar c = false := dropWhile_head_not _ _ _ _ hd
    have hws : c.isWhitespace = false := by
      cases hws2 : c.isWhitespace with
      | false => rfl
      | true =>
        simp only [isMarkerChar, hws2, Bool.or_true] at hcm
        exact hcm
    exact absurd h (pyStrip_cons_ne_empty c cs hws)

/-- C4 counterexample: for the service keyword response `"-\ncycling"`, the
line `"-"` passes the blank-line filter yet strips to the empty string, so
the returned keyword list contains an empty string. -/
theorem synth_keywords_nonempty_counterexample :
    generate_synthetic_keywords svcC4 "m" "t" "en" 8
        = Except.ok ["", "cycling"] ∧
    ("" : String) ∈ (["", "cycling"] : List String) :=
  ⟨rfl, by simp⟩

/-- C4 (amended): the synthesizer strips leading list markers and
whitespace from each line and drops blank lines; every returned keyword is
the stripped residue of a non-blank line, and it is empty only when its
source line consists entirely of list-marker characters. -/
theorem synth_keywords_line_residue (text : String) (n : Nat) :
    ∀ kw ∈ synth_postprocess text n, ∃ line,
      line ∈ pySplitLines text ∧ pyStrip line ≠ "" ∧
      kw = pyStrip ⟨line.data.dropWhile isMarkerChar⟩ ∧
      (kw = "" → line.data.all isMarkerChar = true) := by
  intro kw hkw
  have h1 : kw ∈ dedup_keywords [] (kwLines text) := List.take_subset _ _ hkw
  have h2 : kw ∈ kwLines text := (dedup_keywords_sublist _ _).subset h1
  simp only [kwLines] at h2
  obtain ⟨line, hline, hkw_eq⟩ := List.mem_map.mp h2
  obtain ⟨hline_mem, hline_ne⟩ := List.mem_filter.mp hline
  refine ⟨line, hline_mem, by simpa using hline_ne, hkw_eq.symm, ?_⟩
  intro hempty
  have hnil : line.data.dropWhile isMarkerChar = [] := by
    apply pyStrip_dropWhile_marker_empty
    rw [hkw_eq]
    exact hempty
  rw [List.all_eq_true]
  exact List.dropWhile_eq_nil_iff.mp hnil

theorem synth_keywords_line_residue_witness :
    "cycling" ∈ synth_postprocess "-\ncycling" 8 ∧
    (∃ line, line ∈ pySplitLines "-\ncycling" ∧ pyStrip line ≠ "" ∧
      "cycling" = pyStrip ⟨line.data.dropWhile isMarkerChar⟩ ∧
      ("cycling" = "" → line.data.all isMarkerChar = true)) :=
  ⟨by decide, synth_keywords_line_residue "-\ncycling" 8 "cycling" (by decide)⟩

/-- C8 counterexample: a 90-character title response made of 59 `'a'`s, a
space and 30 `'b'`s yields a final title of 59 characters, not exactly 60:
the post-truncation `.strip()` removes the boundary space. -/
theorem title_exact_sixty_counterexample :
    s90.length = 90 ∧
    generate_title svcC8 "m" "t" "en" none
        = Except.ok (String.mk (List.replicate 59 'a')) ∧
    (String.mk (List.replicate 59 'a')).length = 59 :=
  ⟨by decide, rfl, by decide⟩

/-- C8 (amended): for every 90-character title response, the final title is
the trimmed response cut to its first 60 characters and trimmed again; its
length is at most 60 and `ok_length` is true. -/
theorem generate_title_truncation (svc : Svc) (model topic language : String)
    (keywords : Option (List String)) (s : String) (_hlen : s.length = 90)
    (hsvc : svc model (title_prompts topic language keywords).1
        (title_prompts topic language keywords).2 60 = Except.ok s) :
    generate_title svc model topic language keywords
        = Except.ok (pyStrip (pyTake 60 (pyStrip s))) ∧
    (pyStrip (pyTake 60 (pyStrip s))).length ≤ 60 ∧
    (check_field (pyStrip (pyTake 60 (pyStrip s))) 60 keywords).ok_length = true := by
  refine ⟨?_, stripTake_length_le 60 (pyStrip s),
    decide_eq_true (stripTake_length_le 60 (pyStrip s))⟩
  unfold generate_title chat
  rw [hsvc]
  rfl

theorem generate_title_truncation_witness :
    s90.length = 90 ∧
    (generate_title svcC8 "m" "t" "en" none
        = Except.ok (pyStrip (pyTake 60 (pyStrip s90))) ∧
      (pyStrip (pyTake 60 (pyStrip s90))).length ≤ 60 ∧
      (check_field (pyStrip (pyTake 60 (pyStrip s90))) 60 none).ok_length = true) :=
  ⟨by decide, generate_title_truncation svcC8 "m" "t" "en" none s90 (by decide) rfl⟩


/-- C7: a completion-service connection failure at any generative step
(keyword synthesis, meta description, title, or summary) aborts the run at
that call site with `ServiceUnavailable`; no `SEOResult` is produced, the
failing call is issued exactly once (no retry) and no later call is made. -/
theorem run_aborts_on_service_failure (svc : Svc) (model topic : String)
    (language : Option String) (keywords : Option (List String)) (synth : Bool)
    (path : Option String) (wok : Bool) (ts : String) :
    (keywords.getD [] = [] → synth = true →
      generate_synthetic_keywords svc model topic (resolveLanguage language topic) 8
          = Except.error () →
      run svc model topic language keywords synth path wok ts
          = Except.error RunError.serviceUnavailable ∧
      run_calls svc model topic language keywords synth
          = [kw_chat_call model topic (resolveLanguage language topic) 8]) ∧
    (∀ kws, resolveKeywords svc model topic (resolveLanguage language topic) keywords synth
          = Except.ok kws →
      generate_meta_description svc model topic (resolveLanguage language topic) (some kws)
          = Except.error () →
      run svc model topic language keywords synth path wok ts
          = Except.error RunError.serviceUnavailable ∧
      run_calls svc model topic language keywords synth
          = (if keywords.getD [] = [] ∧ synth = true
              then [kw_chat_call model topic (resolveLanguage language topic) 8] else [])
            ++ [meta_chat_call model topic (resolveLanguage language topic) (some kws)]) ∧
    (∀ kws meta, resolveKeywords svc model topic (resolveLanguage language topic) keywords synth
          = Except.ok kws →
      generate_meta_description svc model topic (resolveLanguage language topic) (some kws)
          = Except.ok meta →
      generate_title svc model topic (resolveLanguage language topic) (some kws)
          = Except.error () →
      run svc model topic language keywords synth path wok ts
          = Except.error RunError.serviceUnavailable ∧
      run_calls svc model topic language keywords synth
          = (if keywords.getD [] = [] ∧ synth = true
              then [kw_chat_call model topic (resolveLanguage language topic) 8] else [])
            ++ [meta_chat_call model topic (resolveLanguage language topic) (some kws),
                title_chat_call model topic (resolveLanguage language topic) (some kws)]) ∧
    (∀ kws meta title,
      resolveKeywords svc model topic (resolveLanguage language topic) keywords synth
          = Except.ok kws →
      generate_meta_description svc model topic (resolveLanguage language topic) (some kws)
          = Except.ok meta →
      generate_title svc model topic (resolveLanguage language topic) (some kws)
          = Except.ok title →
      generate_summary svc model topic (resolveLanguage language topic) (some kws)
          = Except.error () →
      run svc model topic language keywords synth path wok ts
          = Except.error RunError.serviceUnavailable ∧
      run_calls svc model topic language keywords synth
          = (if keywords.getD [] = [] ∧ synth = true
              then [kw_chat_call model topic (resolveLanguage language topic) 8] else [])
            ++ [meta_chat_call model topic (resolveLanguage language topic) (some kws),
                title_chat_call model topic (resolveLanguage language topic) (some kws),
                summary_chat_call model topic (resolveLanguage language topic) (some kws)]) := by
  refine ⟨?_, ?_, ?_, ?_⟩
  · intro h0 hs hkw
    have hrk : resolveKeywords svc model topic (resolveLanguage language topic)
        keywords synth = Except.error () := by
      simp only [resolveKeywords]
      rw [if_pos ⟨h0, hs⟩]
      exact hkw
    constructor
    · unfold run
      simp only [hrk]
    · unfold run_calls
      simp only [hrk]
      rw [if_pos ⟨h0, hs⟩]
  · intro kws hrk hmeta
    constructor
    · unfold run
      simp only [hrk, hmeta]
    · unfold run_calls
      simp only [hrk, hmeta]
  · intro kws meta hrk hmeta htitle
    constructor
    · unfold run
      simp only [hrk, hmeta, htitle]
    · unfold run_calls
      simp only [hrk, hmeta, htitle]
  · intro kws meta title hrk hmeta htitle hsummary
    constructor
    · unfold run
      simp only [hrk, hmeta, htitle, hsummary]
    · unfold run_calls
      simp only [hrk, hmeta, htitle, hsummary]

theorem run_aborts_on_service_failure_witness :
    run svcC7 "m" "t" none none true none true "ts"
        = Except.error RunError.serviceUnavailable ∧
    run_calls svcC7 "m" "t" none none true
        = [kw_chat_call "m" "t" "en" 8,
           meta_chat_call "m" "t" "en" (some ["ok text"]),
           title_chat_call "m" "t" "en" (some ["ok text"])] := by
  have h := (run_aborts_on_service_failure svcC7 "m" "t" none none true
    none true "ts").2.2.1 ["ok text"] "ok text" rfl rfl rfl
  exact ⟨h.1, h.2.trans (by decide)⟩

end SEO
